import Mathlib

/-!
Verification of the curling HTTP client library (a C++ wrapper around libcurl).

The development shallowly embeds the library's data model and operations:
C++ `std::string` values are modelled as `List Char` (`Str`), the curl easy
handle is modelled as a record of the options the library sets on it
(`HandleOpts`), and the `Request` object is the record `RequestState`.
The external transport engine (libcurl's DNS/TCP/TLS/HTTP machinery) is a
collaborator: one transfer attempt is an oracle value `TransferOutcome`.
Exceptions are modelled with an explicit error type `CError`.
-/

set_option autoImplicit false

namespace Curling

/-- C++ byte strings, modelled as lists of characters. -/
abbrev Str := List Char

/-- Converts a Lean string literal to the embedded string type. -/
def str (s : String) : Str := s.data

/-- Embeds C `isspace` in the default locale (space, \t, \n, \v, \f, \r),
as used by the lambda inside `detail::trim`. -/
def isCSpace (c : Char) : Bool :=
  c = ' ' || c = '\t' || c = '\n' || c = '\x0b' || c = '\x0c' || c = '\r'

/-- Embeds `detail::trim` (part_011 lines 118-125): erase leading characters
up to the first non-space, then erase after the last non-space. -/
def trim (s : Str) : Str :=
  ((s.dropWhile isCSpace).reverse.dropWhile isCSpace).reverse

/-- Embeds C `tolower` in the default locale: lowers only A-Z. -/
def toLowerChar (c : Char) : Char :=
  if 65 ≤ c.toNat ∧ c.toNat ≤ 90 then Char.ofNat (c.toNat + 32) else c

/-- Embeds `detail::toLowerCase` (part_011 lines 127-130): transform every
character with `tolower`. -/
def toLower (s : Str) : Str := s.map toLowerChar

/-- The response header map `std::map<std::string, std::vector<std::string>>`,
modelled as an association list from key to the ordered list of values.
(`std::map` orders entries by key; only per-key lookup and the per-key value
order are observable through `Response::getHeader`, so the entry order of the
association list is irrelevant.) -/
abbrev HeaderMap := List (Str × List Str)

/-- Embeds `(*headerMap)[key].push_back(value)`: append `v` to the value
vector of `k`, creating the entry if absent. -/
def addHeaderValue (k v : Str) : HeaderMap → HeaderMap
  | [] => [(k, [v])]
  | (k', vs) :: rest =>
      if k' = k then (k', vs ++ [v]) :: rest else (k', vs) :: addHeaderValue k v rest

/-- Embeds `headers.find(key)` on the `std::map`. -/
def lookupHeader (k : Str) : HeaderMap → Option (List Str)
  | [] => none
  | (k', vs) :: rest => if k' = k then some vs else lookupHeader k rest

/-- Embeds `detail::HeaderCallback` (part_011 lines 533-550): skip the empty
line; find the first colon; if present, split there, trim key and value,
lowercase the key and push the value onto that key's vector; otherwise the
line is a no-op. -/
def headerCallback (m : HeaderMap) (headerLine : Str) : HeaderMap :=
  if headerLine = [] then m
  else
    match headerLine.findIdx? (fun c => c = ':') with
    | none => m
    | some colonPos =>
        let key := toLower (trim (headerLine.take colonPos))
        let value := trim (headerLine.drop (colonPos + 1))
        addHeaderValue key value m

/-- Folds the header callback over the raw header lines in arrival order,
as libcurl invokes it once per received header line. -/
def processHeaderLines (lines : List Str) : HeaderMap :=
  lines.foldl headerCallback []

/-- Embeds `Response::getHeader` (src/include/curling.hpp lines 191-196):
lowercase the queried key, look it up, and return the stored vector or an
empty one. -/
def getHeader (headers : HeaderMap) (key : Str) : List Str :=
  let lowered := toLower key
  match lookupHeader lowered headers with
  | some vs => vs
  | none => []

/-- Specification view of one header line: the (lowercased trimmed key,
trimmed value) pair that `headerCallback` stores, or `none` when the line is
empty or has no colon. -/
def parseHeaderLine (line : Str) : Option (Str × Str) :=
  if line = [] then none
  else
    match line.findIdx? (fun c => c = ':') with
    | none => none
    | some colonPos =>
        some (toLower (trim (line.take colonPos)), trim (line.drop (colonPos + 1)))

/-- The values that arrive for lowercased key `k`, in arrival order. -/
def headerArrivals (k : Str) (lines : List Str) : List Str :=
  (lines.filterMap parseHeaderLine).filterMap
    (fun kv => if kv.1 = k then some kv.2 else none)

/-- The value list stored for key `k`, empty when the key is absent. -/
def valuesOf (k : Str) (m : HeaderMap) : List Str :=
  (lookupHeader k m).getD []

theorem headerCallback_eq_parse (m : HeaderMap) (line : Str) :
    headerCallback m line =
      match parseHeaderLine line with
      | none => m
      | some kv => addHeaderValue kv.1 kv.2 m := by
  unfold headerCallback parseHeaderLine
  by_cases hl : line = []
  · simp [hl]
  · simp only [hl, if_neg]
    cases line.findIdx? (fun c => c = ':') <;> simp

theorem valuesOf_addHeaderValue (k k' v : Str) (m : HeaderMap) :
    valuesOf k (addHeaderValue k' v m) =
      if k' = k then valuesOf k m ++ [v] else valuesOf k m := by
  induction m with
  | nil =>
      by_cases h : k' = k <;> simp [addHeaderValue, valuesOf, lookupHeader, h]
  | cons e rest ih =>
      obtain ⟨ke, vs⟩ := e
      by_cases h1 : ke = k'
      · subst h1
        by_cases h2 : ke = k <;>
          simp [addHeaderValue, valuesOf, lookupHeader, h2]
      · by_cases h2 : ke = k
        · subst h2
          have h3 : ¬ k' = ke := fun h => h1 h.symm
          simp [addHeaderValue, valuesOf, lookupHeader, h1, h3]
        · simp only [addHeaderValue, if_neg h1]
          simpa [valuesOf, lookupHeader, h2] using ih

theorem valuesOf_foldl_headerCallback (lines : List Str) :
    ∀ (m : HeaderMap) (k : Str),
      valuesOf k (lines.foldl headerCallback m) =
        valuesOf k m ++ headerArrivals k lines := by
  induction lines with
  | nil => intro m k; simp [headerArrivals]
  | cons line rest ih =>
      intro m k
      rw [List.foldl_cons, ih, headerCallback_eq_parse]
      cases hp : parseHeaderLine line with
      | none => simp [headerArrivals, hp]
      | some kv =>
          rw [valuesOf_addHeaderValue]
          by_cases hk : kv.1 = k <;>
            simp [headerArrivals, hp, hk, List.filterMap_cons]

theorem getHeader_eq_valuesOf (m : HeaderMap) (key : Str) :
    getHeader m key = valuesOf (toLower key) m := by
  unfold getHeader valuesOf
  cases h : lookupHeader (toLower key) m <;> simp [h]

/-- C5: every response header line with a colon is split on the first colon,
key and value whitespace-trimmed, the key lowercased, and the value appended
to that key's ordered value list; a line with no colon changes nothing; and
`Response.getHeader(key)`, for any casing of `key`, returns all matching
values in arrival order, or the empty list when the key is absent. -/
theorem response_headers_ordered_case_insensitive (lines : List Str) (key : Str) :
    getHeader (processHeaderLines lines) key = headerArrivals (toLower key) lines := by
  rw [getHeader_eq_valuesOf, processHeaderLines,
    valuesOf_foldl_headerCallback]
  simp [valuesOf, lookupHeader]

/-! ## The Request data model -/

/-- Embeds `enum class Request::Method` (DEL avoids the DELETE macro clash). -/
inductive Method
  | GET
  | POST
  | PUT
  | DEL
  | PATCH
  | HEAD
  | MIME
  deriving DecidableEq

/-- Embeds `enum class Request::HttpVersion`. -/
inductive HttpVersion
  | DEFAULT
  | HTTP_1_1
  | HTTP_2
  | HTTP_3
  deriving DecidableEq

/-- Embeds `enum class Request::AuthMethod`. -/
inductive AuthMethod
  | BASIC
  | NTLM
  | DIGEST
  deriving DecidableEq

/-- One part of a multipart MIME body: an inline named field
(`curl_mime_data`) or a named file reference (`curl_mime_filedata`). -/
inductive MimePart
  | fieldData (name value : Str)
  | fileData (name filePath : Str)
  deriving DecidableEq

/-- The destination libcurl writes the response body to
(`CURLOPT_WRITEDATA`): the in-memory `std::ostringstream` or an exclusively
opened file. -/
inductive WriteTarget
  | stream
  | file (path : Str)
  deriving DecidableEq

/-- The options the library sets on its curl easy handle via
`curl_easy_setopt`. A fresh handle from `curl_easy_init` has every option
unset (the record's defaults). -/
structure HandleOpts where
  httpget : Bool := false
  postOpt : Bool := false
  customRequest : Option Str := none
  nobody : Bool := false
  urlOpt : Option Str := none
  httpHeaderList : List Str := []
  mimepost : Bool := false
  postFieldSize : Option Nat := none
  copyPostFields : Option Str := none
  cookieFileOpt : Option Str := none
  cookieJarOpt : Option Str := none
  timeoutOpt : Option Int := none
  connectTimeoutOpt : Option Int := none
  followLocation : Bool := false
  proxyOpt : Option Str := none
  proxyUserPwd : Option Str := none
  proxyAuthOpt : Option AuthMethod := none
  userPwd : Option Str := none
  httpAuthOpt : Option AuthMethod := none
  userAgentOpt : Option Str := none
  verbose : Bool := false
  httpVersionOpt : Option HttpVersion := none
  writeTarget : Option WriteTarget := none
  writeFnSet : Bool := false
  headerFnSet : Bool := false
  xferinfoFnSet : Bool := false
  noprogress : Bool := true
  deriving DecidableEq

/-- Embeds the private members of `class Request`
(src/include/curling.hpp lines 418-429). The `std::function` progress
callback is modelled by its presence (an empty `std::function` is falsy and
never invoked). -/
structure RequestState where
  method : Method
  handle : HandleOpts
  list : List Str
  url : Str
  args : Str
  body : Str
  cookieFile : Str
  cookieJar : Str
  mime : Option (List MimePart)
  downloadFilePath : Str
  progressCallbackSet : Bool
  httpVersion : HttpVersion
  deriving DecidableEq

/-- Embeds the curling exception hierarchy. A `request` error carries the
transport error code and the last observed HTTP status (the C++ message text
embeds both together with the effective URL). -/
inductive CError
  | initializationErr (msg : Str)
  | requestErr (code : Nat) (lastStatus : Int)
  | headerErr (msg : Str)
  | mimeErr (msg : Str)
  | logicErr (msg : Str)
  deriving DecidableEq

/-- Embeds `Request::Request()` (src/src/curling.cpp lines 216-226): fresh
handle from `curl_easy_init`, empty cookie paths, no cookie options applied,
and `CURLOPT_HTTPGET` set to 1 as the default method. -/
def Request.mk0 : RequestState where
  method := .GET
  handle := { httpget := true }
  list := []
  url := []
  args := []
  body := []
  cookieFile := []
  cookieJar := []
  mime := none
  downloadFilePath := []
  progressCallbackSet := false
  httpVersion := .DEFAULT

/-! ## Configuration setters -/

/-- The per-method `curl_easy_setopt` calls of the `switch` statement inside
`Request::setMethod`. -/
def applyMethodOpt (h : HandleOpts) (m : Method) : HandleOpts :=
  match m with
  | .MIME => h
  | .GET => { h with httpget := true }
  | .POST => { h with postOpt := true }
  | .PUT => { h with customRequest := some (str "PUT") }
  | .PATCH => { h with customRequest := some (str "PATCH") }
  | .DEL => { h with customRequest := some (str "DELETE") }
  | .HEAD => { h with nobody := true }

/-- Embeds `Request::setMethod` (src/src/curling.cpp lines 264-298): reject
leaving MIME mode with a LogicException; otherwise clear `CURLOPT_HTTPGET`,
`CURLOPT_POST` and `CURLOPT_CUSTOMREQUEST` before applying the new method's
option. The C++ throw happens before any mutation, so on error the object is
unchanged. -/
def setMethod (s : RequestState) (m : Method) : Except CError RequestState :=
  if s.method = .MIME ∧ m ≠ .MIME then
    .error (.logicErr (str "Cannot override MIME method with another HTTP method"))
  else
    let cleared := { s.handle with httpget := false, postOpt := false, customRequest := none }
    .ok { s with method := m, handle := applyMethodOpt cleared m }

/-- Embeds `Request::setURL`: stores the base URL only; the handle's URL
option is untouched until send-time `updateURL`. -/
def setURL (s : RequestState) (URL : Str) : RequestState :=
  { s with url := URL }

/-- Embeds `curl_easy_escape` per its documented behaviour (an external
collaborator of the library): alphanumerics and `-._~` are kept, every other
byte becomes `%XX` with uppercase hex digits. -/
def hexDigit (n : Nat) : Char :=
  if n < 10 then Char.ofNat (48 + n) else Char.ofNat (55 + n)

/-- Characters `curl_easy_escape` leaves unescaped. -/
def isUnreserved (c : Char) : Bool :=
  (65 ≤ c.toNat && c.toNat ≤ 90) || (97 ≤ c.toNat && c.toNat ≤ 122) ||
  (48 ≤ c.toNat && c.toNat ≤ 57) || c = '-' || c = '.' || c = '_' || c = '~'

/-- Percent-escapes one character. -/
def escapeChar (c : Char) : Str :=
  if isUnreserved c then [c]
  else ['%', hexDigit (c.toNat / 16 % 16), hexDigit (c.toNat % 16)]

/-- Percent-escapes a string, byte for byte. -/
def curlEasyEscape (s : Str) : Str := (s.map escapeChar).flatten

/-- Embeds `Request::addArg` (src/src/curling.cpp lines 305-317): escape key
and value, join them with `=`, and append to the accumulated query string
with a `&` separator when it is non-empty. (The escape calls of the real
library can only fail on allocation failure, which is not modelled.) -/
def addArg (s : RequestState) (key value : Str) : RequestState :=
  let escapedKey := curlEasyEscape key
  let escapedValue := curlEasyEscape value
  let arg := escapedKey ++ str "=" ++ escapedValue
  { s with args := s.args ++ (if s.args = [] then [] else str "&") ++ arg }

/-- Embeds `Request::addHeader` (src/src/curling.cpp lines 324-333): append
the line to the owned `curl_slist` and point `CURLOPT_HTTPHEADER` at the
list. (`curl_slist_append` can only fail on allocation failure, which is not
modelled.) -/
def addHeader (s : RequestState) (header : Str) : RequestState :=
  let newList := s.list ++ [header]
  { s with list := newList, handle := { s.handle with httpHeaderList := newList } }

/-- Embeds `Request::setBody`: store the body unconditionally; forward it to
the handle only for POST/PUT/PATCH. -/
def setBody (s : RequestState) (body : Str) : RequestState :=
  let s := { s with body := body }
  if s.method = .POST ∨ s.method = .PUT ∨ s.method = .PATCH then
    { s with handle := { s.handle with
        postFieldSize := some s.body.length, copyPostFields := some s.body } }
  else s

/-- Embeds `Request::downloadToFile`. -/
def downloadToFile (s : RequestState) (path : Str) : RequestState :=
  { s with downloadFilePath := path }

/-- Embeds `Request::setProgressCallback` (the stored callback is modelled
by its presence). -/
def setProgressCallback (s : RequestState) : RequestState :=
  { s with progressCallbackSet := true }

/-- Embeds `Request::setTimeout`. -/
def setTimeout (s : RequestState) (seconds : Int) : RequestState :=
  { s with handle := { s.handle with timeoutOpt := some seconds } }

/-- Embeds `Request::setConnectTimeout`. -/
def setConnectTimeout (s : RequestState) (seconds : Int) : RequestState :=
  { s with handle := { s.handle with connectTimeoutOpt := some seconds } }

/-- Embeds `Request::setFollowRedirects`. -/
def setFollowRedirects (s : RequestState) (follow : Bool) : RequestState :=
  { s with handle := { s.handle with followLocation := follow } }

/-- Embeds `Request::setProxy`. -/
def setProxy (s : RequestState) (url : Str) : RequestState :=
  { s with handle := { s.handle with proxyOpt := some url } }

/-- Embeds `Request::setProxyAuth`. -/
def setProxyAuth (s : RequestState) (username password : Str) : RequestState :=
  { s with handle := { s.handle with
      proxyUserPwd := some (username ++ str ":" ++ password) } }

/-- Embeds `Request::setProxyAuthMethod`. -/
def setProxyAuthMethod (s : RequestState) (m : AuthMethod) : RequestState :=
  { s with handle := { s.handle with proxyAuthOpt := some m } }

/-- Embeds `Request::setHttpAuth`. -/
def setHttpAuth (s : RequestState) (username password : Str) : RequestState :=
  { s with handle := { s.handle with
      userPwd := some (username ++ str ":" ++ password) } }

/-- Embeds `Request::setHttpAuthMethod`. -/
def setHttpAuthMethod (s : RequestState) (m : AuthMethod) : RequestState :=
  { s with handle := { s.handle with httpAuthOpt := some m } }

/-- Embeds `Request::setAuthToken` (src/src/curling.cpp lines 502-506):
build the line `Authorization: Bearer <token>` and hand it to `addHeader`. -/
def setAuthToken (s : RequestState) (token : Str) : RequestState :=
  let header := str "Authorization: Bearer " ++ token
  addHeader s header

/-- Embeds `Request::setCookiePath`: set both the read path
(`CURLOPT_COOKIEFILE`) and the write path (`CURLOPT_COOKIEJAR`), and record
them in the member variables. -/
def setCookiePath (s : RequestState) (path : Str) : RequestState :=
  { s with
    cookieFile := path
    cookieJar := path
    handle := { s.handle with cookieFileOpt := some path, cookieJarOpt := some path } }

/-- Embeds `Request::setUserAgent`. -/
def setUserAgent (s : RequestState) (userAgent : Str) : RequestState :=
  { s with handle := { s.handle with userAgentOpt := some userAgent } }

/-- Embeds `Request::enableVerbose`. -/
def enableVerbose (s : RequestState) (enabled : Bool) : RequestState :=
  { s with handle := { s.handle with verbose := enabled } }

/-- Embeds `Request::addFormField`: lazily create the MIME structure (and
point `CURLOPT_MIMEPOST` at it) on first use, then append one named part.
(`curl_mime_init`/`curl_mime_addpart` allocation failure is not modelled.) -/
def addFormField (s : RequestState) (fieldName value : Str) : RequestState :=
  let s :=
    match s.mime with
    | none => { s with mime := some [], handle := { s.handle with mimepost := true } }
    | some _ => s
  { s with mime := some ((s.mime.getD []) ++ [MimePart.fieldData fieldName value]) }

/-- Embeds `Request::addFormFile`: like `addFormField` with a file part. -/
def addFormFile (s : RequestState) (fieldName filePath : Str) : RequestState :=
  let s :=
    match s.mime with
    | none => { s with mime := some [], handle := { s.handle with mimepost := true } }
    | some _ => s
  { s with mime := some ((s.mime.getD []) ++ [MimePart.fileData fieldName filePath]) }

/-- The transport engine's build-time capability flags from
`curl_version_info` (external collaborator). -/
structure EngineFeatures where
  http2 : Bool
  http3 : Bool
  deriving DecidableEq

/-- Embeds `Request::setHttpVersion`: validate the requested version against
the engine's capabilities, throwing a LogicException for an unsupported
HTTP/2 or HTTP/3; otherwise store the preference. -/
def setHttpVersion (s : RequestState) (info : EngineFeatures) (version : HttpVersion) :
    Except CError RequestState :=
  match version with
  | .HTTP_2 =>
      if !info.http2 then
        .error (.logicErr (str "HTTP/2 is not supported by the current libcurl build."))
      else .ok { s with httpVersion := version }
  | .HTTP_3 =>
      if !info.http3 then
        .error (.logicErr (str "HTTP/3 is not supported by the current libcurl build."))
      else .ok { s with httpVersion := version }
  | _ => .ok { s with httpVersion := version }

/-- Embeds `Request::reset` (src/src/curling.cpp lines 426-452): obtain a
fresh handle, run `clean()` (frees mime, header list and old handle), set
`CURLOPT_HTTPGET` to 1, clear args/url/body/downloadFilePath, return the
method to GET, and null out the header/mime/write/post/progress options on
the fresh handle (no cookie option is re-applied). -/
def reset (s : RequestState) : RequestState :=
  { s with
    mime := none
    list := []
    handle := { ({} : HandleOpts) with httpget := true }
    args := []
    url := []
    body := []
    downloadFilePath := []
    method := .GET }

/-! ## Transfer execution -/

/-- Embeds `struct Response`. -/
structure Response where
  httpCode : Int
  body : Str
  headers : HeaderMap
  deriving DecidableEq

/-- One transfer attempt as observed through the transport engine
(external collaborator): the `CURLcode` of `curl_easy_perform` (0 is
`CURLE_OK`), the status from `CURLINFO_RESPONSE_CODE`, and the header lines
and body bytes delivered through the registered callbacks. -/
structure TransferOutcome where
  curlCode : Nat
  respCode : Int
  headerLines : List Str
  bodyData : Str
  deriving DecidableEq

/-- The result of a send: a Response, or a thrown exception. -/
inductive SendOutcome
  | success (r : Response)
  | failure (e : CError)
  deriving DecidableEq

/-- True exactly when the send threw a RequestException. -/
def isRequestFailure : SendOutcome → Bool
  | .failure (.requestErr _ _) => true
  | _ => false

/-- True exactly when the send returned a Response. -/
def isSuccessOutcome : SendOutcome → Bool
  | .success _ => true
  | _ => false

/-- Embeds `Request::updateURL` (src/src/curling.cpp lines 460-463): point
`CURLOPT_URL` at the base URL, with `?args` appended when arguments exist. -/
def updateURL (s : RequestState) : RequestState :=
  let u := if s.args = [] then s.url else s.url ++ str "?" ++ s.args
  { s with handle := { s.handle with urlOpt := some u } }

/-- Maps the stored `HttpVersion` preference to the `CURLOPT_HTTP_VERSION`
value, as the `switch` at the start of the transfer does. -/
def curlHttpVersionOf (v : HttpVersion) : HttpVersion := v

/-- Embeds the transfer-configuration prefix of `Request::send`
(src/src/curling.cpp lines 349-388): register the progress bridge when a
callback is present, select the write target (file when `downloadFilePath`
is set, else the in-memory stream), register the header callback, run
`updateURL`, and apply the HTTP version option. (`fopen` failure on the
download path is not modelled.) -/
def configureTransfer (s : RequestState) : RequestState :=
  let s :=
    if s.progressCallbackSet then
      { s with handle := { s.handle with xferinfoFnSet := true, noprogress := false } }
    else s
  let s :=
    if s.downloadFilePath ≠ [] then
      { s with handle := { s.handle with writeTarget := some (.file s.downloadFilePath) } }
    else
      { s with handle := { s.handle with writeFnSet := true, writeTarget := some .stream } }
  let s := { s with handle := { s.handle with headerFnSet := true } }
  let s := updateURL s
  { s with handle := { s.handle with httpVersionOpt := some (curlHttpVersionOf s.httpVersion) } }

/-- Embeds `Response Request::send()` (src/src/curling.cpp lines 349-424):
configure the transfer, perform it, record the HTTP status regardless of the
result, collect headers through `headerCallback`; on a non-OK engine result
throw a RequestException (the source does not reset on this path), otherwise
capture the body (unless streamed to file), reset for reuse and return the
Response. The post-call state of the object is returned alongside. -/
def sendOnce (outcome : TransferOutcome) (s : RequestState) :
    SendOutcome × RequestState :=
  let s := configureTransfer s
  let res := outcome.curlCode
  let httpCode := outcome.respCode
  let headers := outcome.headerLines.foldl headerCallback []
  if res ≠ 0 then
    (.failure (.requestErr res httpCode), s)
  else
    let body := if s.downloadFilePath = [] then outcome.bodyData else []
    (.success { httpCode := httpCode, body := body, headers := headers }, reset s)

/-- Modelled from the spec: the retry loop of the `send(attempts)` executor
of spec section 4.3 is not present under src/ (only its test calls
`send(3)`). For attempt = attemptIdx, attemptIdx+1, ...: perform the
transfer, record the status code regardless of outcome; on a transport-level
failure with attempts remaining, sleep `baseDelay * 2^(attempt-1)` (time is
not modelled) and retry; on the last attempt reset internal state and
re-raise the classified error; on transport success capture the body (unless
streamed to file), reset for reuse and return immediately. Falling out of
the loop is an internal logic error. The `Nat` component counts performed
transfer attempts. -/
def retryLoop (oracle : Nat → TransferOutcome) (attemptIdx : Nat) (remaining : Nat)
    (s : RequestState) : SendOutcome × RequestState × Nat :=
  match remaining with
  | 0 => (.failure (.logicErr (str "internal error: retry loop produced no outcome")), s, 0)
  | rem + 1 =>
      let outcome := oracle attemptIdx
      let httpCode := outcome.respCode
      if outcome.curlCode ≠ 0 then
        if rem = 0 then
          (.failure (.requestErr outcome.curlCode httpCode), reset s, 1)
        else
          let next := retryLoop oracle (attemptIdx + 1) rem s
          (next.1, next.2.1, next.2.2 + 1)
      else
        let headers := outcome.headerLines.foldl headerCallback []
        let body := if s.downloadFilePath = [] then outcome.bodyData else []
        (.success { httpCode := httpCode, body := body, headers := headers }, reset s, 1)

/-- Modelled from the spec: `send(attempts)` (spec section 4.3), absent from
src/. Zero attempts is a LogicError; otherwise the transport configuration
is finalized once, before the retry loop, and the loop runs attempts
1..attempts. The `Nat` component counts performed transfer attempts. -/
def sendRetry (oracle : Nat → TransferOutcome) (attempts : Nat) (s : RequestState) :
    SendOutcome × RequestState × Nat :=
  if attempts = 0 then
    (.failure (.logicErr (str "send requires at least one attempt")), s, 0)
  else
    let s := configureTransfer s
    retryLoop oracle 1 attempts s

/-! ## Global runtime state -/

/-- Embeds the process-wide globals of `namespace detail` (part_011 lines
507-525): the `std::once_flag`, the instance counter, and ghost counters for
how many times `curl_global_init` and `curl_global_cleanup` actually ran and
how often the counter was incremented/decremented. -/
structure GlobalState where
  onceFlagDone : Bool
  instanceCount : Int
  globalInitCalls : Nat
  globalCleanupCalls : Nat
  incCalls : Nat
  decCalls : Nat
  deriving DecidableEq

/-- The process start state. -/
def g0 : GlobalState :=
  { onceFlagDone := false, instanceCount := 0, globalInitCalls := 0
    globalCleanupCalls := 0, incCalls := 0, decCalls := 0 }

/-- Embeds `detail::ensureCurlGlobalInit` (part_011 lines 512-518):
`curl_global_init` under `std::call_once`, then increment the counter under
the mutex. -/
def ensureCurlGlobalInit (g : GlobalState) : GlobalState :=
  let g :=
    if g.onceFlagDone then g
    else { g with onceFlagDone := true, globalInitCalls := g.globalInitCalls + 1 }
  { g with instanceCount := g.instanceCount + 1, incCalls := g.incCalls + 1 }

/-- Embeds `detail::maybeCleanupGlobalCurl` (part_011 lines 520-525):
decrement the counter under the mutex and run `curl_global_cleanup` exactly
when it reaches zero. -/
def maybeCleanupGlobalCurl (g : GlobalState) : GlobalState :=
  let g := { g with instanceCount := g.instanceCount - 1, decCalls := g.decCalls + 1 }
  if g.instanceCount = 0 then
    { g with globalCleanupCalls := g.globalCleanupCalls + 1 }
  else g

/-- The lifecycle events of Request objects that touch (or fail to touch)
the global runtime. The default constructor calls `ensureCurlGlobalInit`;
the move constructor (src/src/curling.cpp lines 228-238) and move assignment
(lines 240-257) make no global call; the destructor (lines 259-262) calls
`maybeCleanupGlobalCurl`. -/
inductive LifecycleEvent
  | construct
  | moveConstruct
  | moveAssign
  | destruct
  deriving DecidableEq

/-- The effect of one lifecycle event on the global runtime, as the code
performs it. -/
def stepEvent (g : GlobalState) : LifecycleEvent → GlobalState
  | .construct => ensureCurlGlobalInit g
  | .moveConstruct => g
  | .moveAssign => g
  | .destruct => maybeCleanupGlobalCurl g

/-- Runs a sequence of lifecycle events from a global state. -/
def runEvents (g : GlobalState) (es : List LifecycleEvent) : GlobalState :=
  es.foldl stepEvent g

/-- The number of Request objects brought into existence by a sequence
(default constructions plus move constructions). -/
def constructionsOf (es : List LifecycleEvent) : Nat :=
  es.countP (fun e => e = .construct || e = .moveConstruct)

/-- The number of Request objects destroyed by a sequence. -/
def destructionsOf (es : List LifecycleEvent) : Nat :=
  es.countP (fun e => e = .destruct)

/-- The number of Request objects alive after a sequence. -/
def liveObjects (es : List LifecycleEvent) : Int :=
  (constructionsOf es : Int) - (destructionsOf es : Int)

/-! ## Move operations -/

/-- Embeds `Request::Request(Request&&)` (src/src/curling.cpp lines
228-238): the member-initializer list transfers method, handle, header list,
url, args, body, cookie paths and mime; `downloadFilePath`,
`progressCallback` and `httpVersion` are absent from it, so the new object
holds their default-constructed values. -/
def moveConstructed (other : RequestState) : RequestState where
  method := other.method
  handle := other.handle
  list := other.list
  url := other.url
  args := other.args
  body := other.body
  cookieFile := other.cookieFile
  cookieJar := other.cookieJar
  mime := other.mime
  downloadFilePath := []
  progressCallbackSet := false
  httpVersion := .DEFAULT

/-- Embeds `Request::operator=(Request&&)` (src/src/curling.cpp lines
240-257): after `clean()`, transfer method, handle, header list, mime, url,
args, body and cookie paths; `downloadFilePath`, `progressCallback` and
`httpVersion` are not assigned, so the destination keeps its previous
values. -/
def moveAssigned (dest source : RequestState) : RequestState :=
  { dest with
    method := source.method
    handle := source.handle
    list := source.list
    mime := source.mime
    url := source.url
    args := source.args
    body := source.body
    cookieFile := source.cookieFile
    cookieJar := source.cookieJar }

/-! ## The configuration API as a step relation -/

/-- One public configuration call on a Request. `setHttpVersion` carries the
engine's capability flags it validates against. -/
inductive ApiCall
  | setMethod (m : Method)
  | setURL (u : Str)
  | addArg (k v : Str)
  | addHeader (h : Str)
  | setBody (b : Str)
  | downloadToFile (p : Str)
  | setProgressCallback
  | setTimeout (n : Int)
  | setConnectTimeout (n : Int)
  | setFollowRedirects (b : Bool)
  | setProxy (u : Str)
  | setProxyAuth (u p : Str)
  | setProxyAuthMethod (m : AuthMethod)
  | setHttpAuth (u p : Str)
  | setHttpAuthMethod (m : AuthMethod)
  | setAuthToken (t : Str)
  | setUserAgent (ua : Str)
  | addFormField (n v : Str)
  | addFormFile (n p : Str)
  | enableVerbose (b : Bool)
  | setHttpVersion (info : EngineFeatures) (v : HttpVersion)
  | setCookiePath (p : Str)
  | resetCall
  deriving DecidableEq

/-- Applies one call to the object. A call that throws (`setMethod` out of
MIME mode, `setHttpVersion` on an unsupported version) leaves the object
unchanged, since the C++ code throws before mutating. -/
def applyCall (s : RequestState) : ApiCall → RequestState
  | .setMethod m => match setMethod s m with | .ok s' => s' | .error _ => s
  | .setURL u => setURL s u
  | .addArg k v => addArg s k v
  | .addHeader h => addHeader s h
  | .setBody b => setBody s b
  | .downloadToFile p => downloadToFile s p
  | .setProgressCallback => setProgressCallback s
  | .setTimeout n => setTimeout s n
  | .setConnectTimeout n => setConnectTimeout s n
  | .setFollowRedirects b => setFollowRedirects s b
  | .setProxy u => setProxy s u
  | .setProxyAuth u p => setProxyAuth s u p
  | .setProxyAuthMethod m => setProxyAuthMethod s m
  | .setHttpAuth u p => setHttpAuth s u p
  | .setHttpAuthMethod m => setHttpAuthMethod s m
  | .setAuthToken t => setAuthToken s t
  | .setUserAgent ua => setUserAgent s ua
  | .addFormField n v => addFormField s n v
  | .addFormFile n p => addFormFile s n p
  | .enableVerbose b => enableVerbose s b
  | .setHttpVersion info v => match setHttpVersion s info v with | .ok s' => s' | .error _ => s
  | .setCookiePath p => setCookiePath s p
  | .resetCall => reset s

/-- Applies a sequence of calls to a fresh Request. -/
def applyCalls (calls : List ApiCall) : RequestState :=
  calls.foldl applyCall Request.mk0

/-- True exactly on `setCookiePath` calls. -/
def isSetCookiePathCall : ApiCall → Bool
  | .setCookiePath _ => true
  | _ => false

/-! ## C6: query arguments are escaped, ordered, and joined at send time -/

/-- The escaped `key=value` form of one argument pair. -/
def encPair (p : Str × Str) : Str :=
  curlEasyEscape p.1 ++ str "=" ++ curlEasyEscape p.2

/-- A sequence of `addArg` calls in order. -/
def foldArgs (s : RequestState) (pairs : List (Str × Str)) : RequestState :=
  pairs.foldl (fun s p => addArg s p.1 p.2) s

theorem addArg_args_eq (s : RequestState) (k v : Str) :
    (addArg s k v).args
      = s.args ++ (if s.args = [] then [] else str "&") ++ encPair (k, v) := rfl

theorem encPair_ne_nil (p : Str × Str) : encPair p ≠ [] := by
  intro h
  rcases List.append_eq_nil.mp h with ⟨h1, _⟩
  rcases List.append_eq_nil.mp h1 with ⟨_, h2⟩
  exact absurd h2 (by decide)

theorem intercalate_cons_eq_flatten (sep x : Str) (xs : List Str) :
    List.intercalate sep (x :: xs) = x ++ (xs.map (fun y => sep ++ y)).flatten := by
  induction xs generalizing x with
  | nil => simp [List.intercalate, List.intersperse]
  | cons y ys ih =>
      have h1 : List.intercalate sep (x :: y :: ys)
          = x ++ sep ++ List.intercalate sep (y :: ys) := by
        simp [List.intercalate, List.intersperse]
      rw [h1, ih y]
      simp [List.append_assoc]

theorem foldArgs_args_of_ne_nil (pairs : List (Str × Str)) :
    ∀ s : RequestState, s.args ≠ [] →
      (foldArgs s pairs).args
        = s.args ++ (pairs.map (fun p => str "&" ++ encPair p)).flatten := by
  induction pairs with
  | nil => intro s _; simp [foldArgs]
  | cons p rest ih =>
      intro s h
      have hstep : (addArg s p.1 p.2).args = s.args ++ (str "&" ++ encPair p) := by
        rw [addArg_args_eq, if_neg h, List.append_assoc]
      have hne : (addArg s p.1 p.2).args ≠ [] := by
        rw [hstep]
        intro hc
        exact h (List.append_eq_nil.mp hc).1
      have hrec := ih (addArg s p.1 p.2) hne
      have hfold : foldArgs s (p :: rest) = foldArgs (addArg s p.1 p.2) rest := rfl
      rw [hfold, hrec, hstep]
      simp [List.append_assoc]

theorem foldArgs_mk0_args (pairs : List (Str × Str)) :
    (foldArgs Request.mk0 pairs).args
      = List.intercalate (str "&") (pairs.map encPair) := by
  cases pairs with
  | nil => rfl
  | cons p rest =>
      have h1 : (addArg Request.mk0 p.1 p.2).args = encPair p := by
        rw [addArg_args_eq]
        rfl
      have hne : (addArg Request.mk0 p.1 p.2).args ≠ [] := by
        rw [h1]; exact encPair_ne_nil p
      have hfold : foldArgs Request.mk0 (p :: rest)
          = foldArgs (addArg Request.mk0 p.1 p.2) rest := rfl
      rw [hfold, foldArgs_args_of_ne_nil rest _ hne, h1, List.map_cons,
        intercalate_cons_eq_flatten, List.map_map]
      rfl

theorem configureTransfer_urlOpt (s : RequestState) :
    (configureTransfer s).handle.urlOpt
      = some (if s.args = [] then s.url else s.url ++ str "?" ++ s.args) := by
  unfold configureTransfer updateURL
  by_cases h1 : s.progressCallbackSet <;> by_cases h2 : s.downloadFilePath = [] <;>
    simp [h1, h2]

/-- C6: every `addArg(key, value)` call appends the percent-escaped pair
`key=value`; pairs are joined by `&` in call order (so
`addArg("page","1")` then `addArg("q","a b")` yields `page=1&q=a%20b`); and
the final request URL `base?args` is computed only at send time, not
incrementally (`addArg` and `setURL` leave the handle's URL option
untouched, and the send-time configuration sets it from the accumulated
state). -/
theorem args_escaped_joined_at_send_time (pairs : List (Str × Str))
    (s : RequestState) (u k v : Str) :
    (foldArgs Request.mk0 pairs).args
        = List.intercalate (str "&") (pairs.map encPair)
    ∧ (addArg (addArg Request.mk0 (str "page") (str "1")) (str "q") (str "a b")).args
        = str "page=1&q=a%20b"
    ∧ (addArg s k v).handle.urlOpt = s.handle.urlOpt
    ∧ (setURL s u).handle.urlOpt = s.handle.urlOpt
    ∧ (configureTransfer s).handle.urlOpt
        = some (if s.args = [] then s.url else s.url ++ str "?" ++ s.args) :=
  ⟨foldArgs_mk0_args pairs, by decide, rfl, rfl, configureTransfer_urlOpt s⟩

/-! ## C9: setAuthToken accumulates Authorization headers -/

/-- C9 counterexample: after `setAuthToken("t1")` then `setAuthToken("t2")`
the outgoing header list holds two Authorization values, not the
configuration that `setAuthToken("t2")` alone would produce. -/
theorem setAuthToken_not_last_write_wins :
    (setAuthToken (setAuthToken Request.mk0 (str "t1")) (str "t2")).list
      = [str "Authorization: Bearer t1", str "Authorization: Bearer t2"]
    ∧ (setAuthToken (setAuthToken Request.mk0 (str "t1")) (str "t2")).list
      ≠ (setAuthToken Request.mk0 (str "t2")).list := by
  constructor <;> decide

/-- C9 (amended): `setAuthToken` appends a fresh `Authorization: Bearer`
header line on each call; after `setAuthToken(t1)` then `setAuthToken(t2)`
the owned header list and the handle's header option contain both lines, in
call order. -/
theorem setAuthToken_appends_in_call_order (s : RequestState) (t1 t2 : Str) :
    (setAuthToken (setAuthToken s t1) t2).list
      = s.list ++ [str "Authorization: Bearer " ++ t1, str "Authorization: Bearer " ++ t2]
    ∧ (setAuthToken (setAuthToken s t1) t2).handle.httpHeaderList
      = s.list ++ [str "Authorization: Bearer " ++ t1, str "Authorization: Bearer " ++ t2] := by
  constructor <;> simp [setAuthToken, addHeader]

/-! ## C10: what move operations transfer -/

/-- C10 counterexample: move-assignment does not leave the destination with
the default download file path; the destination keeps its previously
configured one, so the claim that the destination retains defaults for the
non-transferred settings fails for move-assignment. -/
theorem move_assign_keeps_dest_download_path :
    (moveAssigned (downloadToFile Request.mk0 (str "old.bin")) Request.mk0).downloadFilePath
      = str "old.bin"
    ∧ (moveAssigned (downloadToFile Request.mk0 (str "old.bin")) Request.mk0).downloadFilePath
      ≠ Request.mk0.downloadFilePath := by
  constructor <;> decide

/-- C10 (amended): move-construction and move-assignment transfer method,
transport handle, header list, MIME structure, url, args, body, and cookie
paths, and neither transfers the download file path, the progress callback,
or the HTTP version preference; a move-constructed Request holds the
defaults for those three, while a move-assigned Request keeps its own
previous values for them. -/
theorem move_transfers_all_but_download_progress_version
    (other dest : RequestState) :
    (moveConstructed other).method = other.method
    ∧ (moveConstructed other).handle = other.handle
    ∧ (moveConstructed other).list = other.list
    ∧ (moveConstructed other).mime = other.mime
    ∧ (moveConstructed other).url = other.url
    ∧ (moveConstructed other).args = other.args
    ∧ (moveConstructed other).body = other.body
    ∧ (moveConstructed other).cookieFile = other.cookieFile
    ∧ (moveConstructed other).cookieJar = other.cookieJar
    ∧ (moveConstructed other).downloadFilePath = Request.mk0.downloadFilePath
    ∧ (moveConstructed other).progressCallbackSet = Request.mk0.progressCallbackSet
    ∧ (moveConstructed other).httpVersion = Request.mk0.httpVersion
    ∧ (moveAssigned dest other).method = other.method
    ∧ (moveAssigned dest other).handle = other.handle
    ∧ (moveAssigned dest other).list = other.list
    ∧ (moveAssigned dest other).mime = other.mime
    ∧ (moveAssigned dest other).url = other.url
    ∧ (moveAssigned dest other).args = other.args
    ∧ (moveAssigned dest other).body = other.body
    ∧ (moveAssigned dest other).cookieFile = other.cookieFile
    ∧ (moveAssigned dest other).cookieJar = other.cookieJar
    ∧ (moveAssigned dest other).downloadFilePath = dest.downloadFilePath
    ∧ (moveAssigned dest other).progressCallbackSet = dest.progressCallbackSet
    ∧ (moveAssigned dest other).httpVersion = dest.httpVersion := by
  repeat refine And.intro rfl ?_
  rfl

/-! ## C7: the global instance counter under moves -/

/-- C7: the lifecycle sequence "construct A; move-construct B from A;
destroy A; destroy B" creates two Request objects but increments the
counter once, so the counter hits zero and `curl_global_cleanup` runs when
A alone is destroyed, while B is still alive, and B's destruction drives
the counter to -1; moreover across "construct; destroy; construct; destroy"
the cleanup runs twice though `curl_global_init` (under `std::call_once`)
ran once. This contradicts the claimed once-per-construction increment and
the exactly-once teardown. -/
theorem global_refcount_violated_by_moves :
    constructionsOf [LifecycleEvent.construct, .moveConstruct, .destruct, .destruct] = 2
    ∧ (runEvents g0 [.construct, .moveConstruct, .destruct, .destruct]).incCalls = 1
    ∧ (runEvents g0 [.construct, .moveConstruct, .destruct]).globalCleanupCalls = 1
    ∧ liveObjects [.construct, .moveConstruct, .destruct] = 1
    ∧ (runEvents g0 [.construct, .moveConstruct, .destruct, .destruct]).instanceCount = -1
    ∧ (runEvents g0 [.construct, .destruct, .construct, .destruct]).globalCleanupCalls = 2
    ∧ (runEvents g0 [.construct, .destruct, .construct, .destruct]).globalInitCalls = 1 := by
  repeat refine And.intro (by decide) ?_
  decide

/-! ## C3: a successful send resets the configuration -/

/-- C3: after every successful send, the Request's configuration equals
that of a freshly constructed Request: the method is GET and the url, body,
and query args are cleared. -/
theorem successful_send_resets_to_fresh (outcome : TransferOutcome) (s : RequestState)
    (h : isSuccessOutcome (sendOnce outcome s).1 = true) :
    (sendOnce outcome s).2.method = Request.mk0.method
    ∧ (sendOnce outcome s).2.url = Request.mk0.url
    ∧ (sendOnce outcome s).2.body = Request.mk0.body
    ∧ (sendOnce outcome s).2.args = Request.mk0.args := by
  by_cases hc : outcome.curlCode = 0
  · simp only [sendOnce, hc]
    simp [reset, Request.mk0]
  · simp [sendOnce, hc, isSuccessOutcome] at h

/-- Witness for C3 at a concrete 200 OK transfer. -/
theorem successful_send_resets_to_fresh_witness :
    isSuccessOutcome (sendOnce ⟨0, 200, [], str "hello"⟩ Request.mk0).1 = true
    ∧ ((sendOnce ⟨0, 200, [], str "hello"⟩ Request.mk0).2.method = Request.mk0.method
       ∧ (sendOnce ⟨0, 200, [], str "hello"⟩ Request.mk0).2.url = Request.mk0.url
       ∧ (sendOnce ⟨0, 200, [], str "hello"⟩ Request.mk0).2.body = Request.mk0.body
       ∧ (sendOnce ⟨0, 200, [], str "hello"⟩ Request.mk0).2.args = Request.mk0.args) :=
  ⟨by decide, successful_send_resets_to_fresh ⟨0, 200, [], str "hello"⟩ Request.mk0 (by decide)⟩

/-! ## C4: MIME is a sticky method until reset -/

/-- The state produced by a successful `setMethod(MIME)`: the method-select
options are cleared and the method is MIME. -/
def mimeCleared (s : RequestState) : RequestState :=
  { s with
    method := Method.MIME
    handle := { s.handle with httpget := false, postOpt := false, customRequest := none } }

/-- C4: on a Request whose current method is MIME, `setMethod(m)` with
m ≠ MIME raises a LogicError and leaves the object unchanged, while
`setMethod(MIME)` succeeds; its result is a fixed point of further
`setMethod(MIME)` calls (a no-op when repeated); and only an explicit reset
ends the stickiness: after reset the method is GET and every method can be
set again. -/
theorem mime_method_sticky_until_reset (s : RequestState) (m : Method)
    (h : s.method = Method.MIME) :
    (m ≠ Method.MIME →
        setMethod s m = Except.error (CError.logicErr
          (str "Cannot override MIME method with another HTTP method"))
        ∧ applyCall s (ApiCall.setMethod m) = s)
    ∧ (∃ s', setMethod s Method.MIME = Except.ok s' ∧ s'.method = Method.MIME
        ∧ setMethod s' Method.MIME = Except.ok s')
    ∧ (reset s).method = Method.GET
    ∧ (∀ m', ∃ s'', setMethod (reset s) m' = Except.ok s'') := by
  refine ⟨?_, ?_, rfl, ?_⟩
  · intro hm
    constructor
    · simp [setMethod, h, hm]
    · simp [applyCall, setMethod, h, hm]
  · refine ⟨mimeCleared s, ?_, rfl, ?_⟩
    · simp [setMethod, applyMethodOpt, mimeCleared]
    · simp [setMethod, applyMethodOpt, mimeCleared]
  · intro m'
    exact ⟨_, rfl⟩

/-- Witness for C4 on the concrete state obtained by setting MIME on a
fresh Request, with POST as the rejected transition. -/
theorem mime_method_sticky_until_reset_witness :
    (setMethod (applyCall Request.mk0 (ApiCall.setMethod Method.MIME)) Method.POST
        = Except.error (CError.logicErr
          (str "Cannot override MIME method with another HTTP method"))
      ∧ applyCall (applyCall Request.mk0 (ApiCall.setMethod Method.MIME))
          (ApiCall.setMethod Method.POST)
        = applyCall Request.mk0 (ApiCall.setMethod Method.MIME))
    ∧ (∃ s', setMethod (applyCall Request.mk0 (ApiCall.setMethod Method.MIME)) Method.MIME
          = Except.ok s' ∧ s'.method = Method.MIME
          ∧ setMethod s' Method.MIME = Except.ok s')
    ∧ (reset (applyCall Request.mk0 (ApiCall.setMethod Method.MIME))).method = Method.GET
    ∧ (∀ m', ∃ s'', setMethod (reset (applyCall Request.mk0 (ApiCall.setMethod Method.MIME))) m'
        = Except.ok s'') := by
  have t := mime_method_sticky_until_reset
    (applyCall Request.mk0 (ApiCall.setMethod Method.MIME)) Method.POST (by decide)
  exact ⟨t.1 (by decide), t.2.1, t.2.2.1, t.2.2.2⟩

/-! ## C1 and C2: the retry executor -/

/-- A transfer outcome that fails at the transport level with
`CURLE_COULDNT_RESOLVE_HOST` (code 6), as against a non-resolving host. -/
def failDNS : TransferOutcome :=
  { curlCode := 6, respCode := 0, headerLines := [], bodyData := [] }

theorem retryLoop_all_fail (oracle : Nat → TransferOutcome)
    (hfail : ∀ i, (oracle i).curlCode ≠ 0) :
    ∀ (remaining attemptIdx : Nat) (s : RequestState), 1 ≤ remaining →
      isRequestFailure (retryLoop oracle attemptIdx remaining s).1 = true
      ∧ (retryLoop oracle attemptIdx remaining s).2.1 = reset s
      ∧ (retryLoop oracle attemptIdx remaining s).2.2 = remaining := by
  intro remaining
  induction remaining with
  | zero => intro _ _ hle; exact absurd hle (by omega)
  | succ rem ih =>
      intro attemptIdx s _
      by_cases hr : rem = 0
      · subst hr
        simp [retryLoop, hfail attemptIdx, isRequestFailure]
      · have h1 : 1 ≤ rem := Nat.one_le_iff_ne_zero.mpr hr
        have hprev := ih (attemptIdx + 1) s h1
        simp only [retryLoop, hfail attemptIdx, ne_eq, not_false_eq_true, if_true, hr,
          if_false]
        exact ⟨hprev.1, hprev.2.1, by rw [hprev.2.2]⟩

/-- C1: for every attempts ≥ 1, `send(attempts)` on a Request whose every
transfer fails at the transport level performs exactly `attempts` transfer
attempts and then raises a RequestError, rather than returning a Response
or a status code. -/
theorem send_all_transport_failures_retries_exactly (oracle : Nat → TransferOutcome)
    (attempts : Nat) (s : RequestState)
    (h1 : 1 ≤ attempts) (h2 : ∀ i, (oracle i).curlCode ≠ 0) :
    isRequestFailure (sendRetry oracle attempts s).1 = true
    ∧ (sendRetry oracle attempts s).2.2 = attempts := by
  have hz : attempts ≠ 0 := by omega
  have hl := retryLoop_all_fail oracle h2 attempts 1 (configureTransfer s) h1
  simp only [sendRetry, hz, if_false]
  exact ⟨hl.1, hl.2.2⟩

/-- Witness for C1 with three attempts against a never-resolving host. -/
theorem send_all_transport_failures_retries_exactly_witness :
    1 ≤ 3
    ∧ (isRequestFailure (sendRetry (fun _ => failDNS) 3 Request.mk0).1 = true
       ∧ (sendRetry (fun _ => failDNS) 3 Request.mk0).2.2 = 3) :=
  ⟨by decide,
   send_all_transport_failures_retries_exactly (fun _ => failDNS) 3 Request.mk0
     (by decide) (fun _ => show failDNS.curlCode ≠ 0 by decide)⟩

/-- A clean, reusable configuration, as `reset` establishes it: method GET,
url, args, body and download path cleared, and the owned header list and
mime structure freed. -/
def cleanConfig (s : RequestState) : Bool :=
  s.method == Method.GET && s.url == [] && s.args == [] && s.body == []
  && s.downloadFilePath == [] && s.list == [] && s.mime == none

theorem cleanConfig_reset (s : RequestState) : cleanConfig (reset s) = true := rfl

theorem retryLoop_request_failure_resets (oracle : Nat → TransferOutcome) :
    ∀ (remaining attemptIdx : Nat) (s : RequestState),
      isRequestFailure (retryLoop oracle attemptIdx remaining s).1 = true →
      (retryLoop oracle attemptIdx remaining s).2.1 = reset s := by
  intro remaining
  induction remaining with
  | zero => intro a s h; simp [retryLoop, isRequestFailure] at h
  | succ rem ih =>
      intro a s h
      by_cases hc : (oracle a).curlCode = 0
      · simp [retryLoop, hc, isRequestFailure] at h
      · by_cases hr : rem = 0
        · subst hr; simp [retryLoop, hc]
        · have h' : isRequestFailure (retryLoop oracle (a + 1) rem s).1 = true := by
            simpa [retryLoop, hc, hr] using h
          simpa [retryLoop, hc, hr] using ih (a + 1) s h'

/-- C2: whenever `send(attempts)` terminates by raising a transfer-level
error (the perform step did not succeed on the final attempt), the Request
has been reset to a clean, reusable configuration state before the error
propagates to the caller. -/
theorem transfer_failure_resets_before_raising (oracle : Nat → TransferOutcome)
    (attempts : Nat) (s : RequestState)
    (h : isRequestFailure (sendRetry oracle attempts s).1 = true) :
    cleanConfig (sendRetry oracle attempts s).2.1 = true := by
  by_cases hz : attempts = 0
  · simp [sendRetry, hz, isRequestFailure] at h
  · have h' : isRequestFailure (retryLoop oracle 1 attempts (configureTransfer s)).1 = true := by
      simpa [sendRetry, hz] using h
    have hr := retryLoop_request_failure_resets oracle attempts 1 (configureTransfer s) h'
    simp only [sendRetry, hz, if_false]
    rw [hr]
    exact cleanConfig_reset _

/-- Witness for C2 at a single failing attempt from a fresh Request. -/
theorem transfer_failure_resets_before_raising_witness :
    isRequestFailure (sendRetry (fun _ => failDNS) 1 Request.mk0).1 = true
    ∧ cleanConfig (sendRetry (fun _ => failDNS) 1 Request.mk0).2.1 = true :=
  ⟨by decide,
   transfer_failure_resets_before_raising (fun _ => failDNS) 1 Request.mk0 (by decide)⟩

/-! ## C8: no cookie jar unless configured -/

/-- True when the handle carries no cookie file to read from and no cookie
jar to write to. -/
def cookieOptsUnset (s : RequestState) : Bool :=
  s.handle.cookieFileOpt == none && s.handle.cookieJarOpt == none

theorem setMethod_preserves_cookie (s : RequestState) (m : Method) :
    (applyCall s (ApiCall.setMethod m)).handle.cookieFileOpt = s.handle.cookieFileOpt
    ∧ (applyCall s (ApiCall.setMethod m)).handle.cookieJarOpt = s.handle.cookieJarOpt := by
  unfold applyCall setMethod
  by_cases hg : s.method = Method.MIME ∧ m ≠ Method.MIME
  · simp [hg]
  · simp only [hg, if_false]
    cases m <;> simp [applyMethodOpt]

theorem applyCall_preserves_cookieUnset (s : RequestState) (c : ApiCall)
    (hc : isSetCookiePathCall c = false) (h : cookieOptsUnset s = true) :
    cookieOptsUnset (applyCall s c) = true := by
  cases c with
  | setMethod m =>
      show cookieOptsUnset
        (match setMethod s m with | Except.ok s' => s' | Except.error _ => s) = true
      cases hsm : setMethod s m with
      | error e => exact h
      | ok s' =>
          unfold setMethod at hsm
          split at hsm
          · injection hsm
          · cases m <;> (injection hsm with he; subst he; exact h)
  | setHttpVersion info v =>
      show cookieOptsUnset
        (match setHttpVersion s info v with | Except.ok s' => s' | Except.error _ => s) = true
      obtain ⟨h2, h3⟩ := info
      cases v <;> cases h2 <;> cases h3 <;> exact h
  | setBody b =>
      show cookieOptsUnset (setBody s b) = true
      by_cases hm : s.method = Method.POST ∨ s.method = Method.PUT ∨ s.method = Method.PATCH <;>
        simpa [setBody, hm, cookieOptsUnset] using h
  | addFormField n v =>
      unfold applyCall addFormField
      cases hm : s.mime <;> exact h
  | addFormFile n p =>
      unfold applyCall addFormFile
      cases hm : s.mime <;> exact h
  | setCookiePath p => simp [isSetCookiePathCall] at hc
  | resetCall => rfl
  | setURL u => exact h
  | addArg k v => exact h
  | addHeader hl => exact h
  | downloadToFile p => exact h
  | setProgressCallback => exact h
  | setTimeout n => exact h
  | setConnectTimeout n => exact h
  | setFollowRedirects b => exact h
  | setProxy u => exact h
  | setProxyAuth u p => exact h
  | setProxyAuthMethod m => exact h
  | setHttpAuth u p => exact h
  | setHttpAuthMethod m => exact h
  | setAuthToken t => exact h
  | setUserAgent ua => exact h
  | enableVerbose b => exact h

theorem foldl_preserves_cookieUnset (calls : List ApiCall) :
    ∀ s : RequestState, (∀ c ∈ calls, isSetCookiePathCall c = false) →
      cookieOptsUnset s = true →
      cookieOptsUnset (calls.foldl applyCall s) = true := by
  induction calls with
  | nil => intro s _ h; simpa using h
  | cons c rest ih =>
      intro s hall h
      rw [List.foldl_cons]
      exact ih _ (fun d hd => hall d (List.mem_cons_of_mem c hd))
        (applyCall_preserves_cookieUnset s c (hall c (List.mem_cons_self c rest)) h)

theorem configureTransfer_preserves_cookie (s : RequestState) :
    (configureTransfer s).handle.cookieFileOpt = s.handle.cookieFileOpt
    ∧ (configureTransfer s).handle.cookieJarOpt = s.handle.cookieJarOpt := by
  unfold configureTransfer updateURL
  by_cases h1 : s.progressCallbackSet <;> by_cases h2 : s.downloadFilePath = [] <;>
    simp [h1, h2]

/-- C8: for every Request on which `setCookiePath` was never called, no
persistent cookie jar is used: after any sequence of other API calls from a
fresh Request, and still after send-time transfer configuration, the
transport handle carries no cookie file to read from and no cookie jar to
write to. -/
theorem no_cookie_jar_unless_configured (calls : List ApiCall)
    (h : ∀ c ∈ calls, isSetCookiePathCall c = false) :
    cookieOptsUnset (applyCalls calls) = true
    ∧ cookieOptsUnset (configureTransfer (applyCalls calls)) = true := by
  have hmain : cookieOptsUnset (applyCalls calls) = true :=
    foldl_preserves_cookieUnset calls Request.mk0 h rfl
  refine ⟨hmain, ?_⟩
  have hp := configureTransfer_preserves_cookie (applyCalls calls)
  simp only [cookieOptsUnset, Bool.and_eq_true, beq_iff_eq] at hmain ⊢
  rw [hp.1, hp.2]
  exact hmain

/-- Witness for C8 on a concrete call sequence that never configures a
cookie path. -/
theorem no_cookie_jar_unless_configured_witness :
    (∀ c ∈ [ApiCall.setURL (str "http://example.com"),
            ApiCall.addArg (str "a") (str "b"),
            ApiCall.setMethod Method.POST,
            ApiCall.setAuthToken (str "tok"),
            ApiCall.resetCall], isSetCookiePathCall c = false)
    ∧ (cookieOptsUnset (applyCalls [ApiCall.setURL (str "http://example.com"),
            ApiCall.addArg (str "a") (str "b"),
            ApiCall.setMethod Method.POST,
            ApiCall.setAuthToken (str "tok"),
            ApiCall.resetCall]) = true
       ∧ cookieOptsUnset (configureTransfer (applyCalls
           [ApiCall.setURL (str "http://example.com"),
            ApiCall.addArg (str "a") (str "b"),
            ApiCall.setMethod Method.POST,
            ApiCall.setAuthToken (str "tok"),
            ApiCall.resetCall])) = true) :=
  ⟨by decide, no_cookie_jar_unless_configured _ (by decide)⟩

end Curling
